import Mathlib

/-!
Shallow embedding of `src/sdks/python/src/strellerminds_sdk/client.py`
(the whole repository source: class `AnalyticsClient` with `__init__`,
`record_session`, `get_session`, `get_student_progress`).

Translation conventions:
- A Python `dict` with string keys and scalar values is an insertion-ordered
  association list `Dict`.
- A Python method becomes a Lean function taking the receiver (`self`) as an
  explicit `AnalyticsClient` argument. Its outcome is a `MethodOut`:
  `result` is `Except SdkError α` (a body with no `raise` statement translates
  to `.ok body`; `SdkError` enumerates the error taxonomy of the design so the
  absence of any error branch is visible in the type), `effects` is the list
  of observable side effects the body performs (the only one in the source is
  `print`; the transaction-related effect constructors model what the imported
  `stellar_sdk` names `Server`, `Keypair`, `TransactionBuilder` could do, and
  are never emitted because the source never calls them), and `selfAfter` is
  the receiver state when the body returns (the bodies never assign to `self`,
  so it is the incoming receiver).
- `stellar_sdk.Server(rpc_url)` only stores the endpoint URL; its constructor
  performs no network interaction, so it is modelled as a record holding
  `horizon_url`.
- The f-string of `record_session` renders the dict with `Dict.pyRepr`,
  mirroring Python `str`/`repr` of a dict of string/int scalars.
-/

/-- Scalar values held by the Python dictionaries the client exchanges. -/
inductive Value where
  | str (s : String)
  | int (n : Int)
  deriving DecidableEq

/-- A Python `dict` with string keys, as an insertion-ordered association list. -/
abbrev Dict : Type := List (String × Value)

/-- Key lookup in a `Dict` (Python `d[k]` / `k in d`). -/
def Dict.lookup (d : Dict) (k : String) : Option Value :=
  match d with
  | [] => none
  | (k₁, v) :: rest => if k₁ = k then some v else Dict.lookup rest k

/-- Python `repr` of a scalar, as interpolated into an f-string. -/
def Value.pyRepr : Value → String
  | .str s => "\x27" ++ s ++ "\x27"
  | .int n => toString n

/-- Comma-separated `key: value` entries of a Python dict `repr`. -/
def Dict.pyReprBody : List (String × Value) → String
  | [] => ""
  | [(k, v)] => "\x27" ++ k ++ "\x27: " ++ v.pyRepr
  | (k, v) :: rest =>
      "\x27" ++ k ++ "\x27: " ++ v.pyRepr ++ ", " ++ Dict.pyReprBody rest

/-- Python `repr` (= `str`) of a dict of scalars, with braces around the body. -/
def Dict.pyRepr (d : Dict) : String :=
  "\x7b" ++ Dict.pyReprBody d ++ "\x7d"

/-- The `stellar_sdk.Server` handle built by `__init__`: its constructor only
records the endpoint URL and performs no network interaction. -/
structure Server where
  horizon_url : String
  deriving DecidableEq

/-- The fields the constructor of `AnalyticsClient` stores on `self`. -/
structure AnalyticsClient where
  contract_id : String
  server : Server
  network_passphrase : String
  deriving DecidableEq

/-- The error taxonomy of the design (§7 of the specification). The source
never raises any of these; modelling them makes that absence statable. -/
inductive SdkError where
  | configError (msg : String)
  | invalidArgument (msg : String)
  | signingError (msg : String)
  | networkError (msg : String)
  | timeoutError (msg : String)
  | contractError (msg : String)
  | notFound (msg : String)
  deriving DecidableEq

/-- Observable side effects a method body can perform. The source only ever
calls `print`; the transaction constructors model the imported `stellar_sdk`
capabilities (`TransactionBuilder`, `Keypair` signing, `Server` submission)
that the placeholder bodies never use. -/
inductive Effect where
  | print (msg : String)
  | buildTransaction (contract_id : String)
  | signTransaction (source_secret : String)
  | submitTransaction (envelope : String)
  deriving DecidableEq

/-- Whether an effect builds, signs or submits a transaction. -/
def Effect.isTransactionOp : Effect → Bool
  | .print _ => false
  | .buildTransaction _ => true
  | .signTransaction _ => true
  | .submitTransaction _ => true

/-- Outcome of a method call: the Python return-or-raise result, the side
effects the body performed, and the receiver state when the body returns. -/
structure MethodOut (α : Type) where
  result : Except SdkError α
  effects : List Effect
  selfAfter : AnalyticsClient

/-- Whether an `Except` result is a normal return (no exception raised). -/
def returnsOk {α : Type} : Except SdkError α → Bool
  | .ok _ => true
  | .error _ => false

/-- `AnalyticsClient.__init__(contract_id, rpc_url, network_passphrase)`:
stores the three configuration values, constructing `Server(rpc_url)`;
no validation and no network access occur. -/
def AnalyticsClient.init (contract_id : String) (rpc_url : String)
    (network_passphrase : String) : Except SdkError AnalyticsClient :=
  .ok ⟨contract_id, ⟨rpc_url⟩, network_passphrase⟩

/-- `AnalyticsClient.record_session(session_data, source_secret)`: prints the
interpolated message and returns the hard-coded string; nothing else happens. -/
def record_session (c : AnalyticsClient) (session_data : Dict)
    (source_secret : String) : MethodOut String :=
  { result := .ok "tx_hash_placeholder"
    effects := [Effect.print ("Recording session for contract "
      ++ c.contract_id ++ ": " ++ session_data.pyRepr)]
    selfAfter := c }

/-- `AnalyticsClient.get_session(session_id)`: returns the fixed dictionary
echoing the given id with status "completed". -/
def get_session (c : AnalyticsClient) (session_id : String) : MethodOut Dict :=
  { result := .ok [("id", Value.str session_id), ("status", Value.str "completed")]
    effects := []
    selfAfter := c }

/-- `AnalyticsClient.get_student_progress(student_address, course_id)`:
returns the fixed dictionary echoing both arguments with progress 100. -/
def get_student_progress (c : AnalyticsClient) (student_address : String)
    (course_id : String) : MethodOut Dict :=
  { result := .ok [("student", Value.str student_address),
      ("course", Value.str course_id), ("progress", Value.int 100)]
    effects := []
    selfAfter := c }

/-- The concrete client of the specification scenario: contract id "C123". -/
def clientC123 : AnalyticsClient :=
  ⟨"C123", ⟨"https://rpc.example.org"⟩, "Test SDF Network ; September 2015"⟩

/-- C1: evaluation at the scenario input. `record_session({duration_s: 300},
secret)` returns the bare constant string "tx_hash_placeholder" — not a
session record with an id and a payload — and `get_session` applied to that
string returns the fixed dictionary `{id, status}`, which is not equal to the
value `record_session` returned and carries no `duration_s` entry. The
round-trip property of the claim fails on the code. -/
theorem C1_record_then_get_does_not_roundtrip :
    (record_session clientC123 [("duration_s", Value.int 300)] "secret").result
      = .ok "tx_hash_placeholder"
    ∧ (get_session clientC123 "tx_hash_placeholder").result
      = .ok [("id", Value.str "tx_hash_placeholder"),
             ("status", Value.str "completed")]
    ∧ Dict.lookup [("id", Value.str "tx_hash_placeholder"),
        ("status", Value.str "completed")] "duration_s" = none :=
  ⟨rfl, rfl, by decide⟩

/-- C2: for every receiver, session_data dictionary and source secret,
`record_session` emits exactly one print effect (the interpolated message),
returns the hard-coded string "tx_hash_placeholder", and performs no
transaction build, sign or submit effect. -/
theorem C2_record_session_is_print_and_constant :
    ∀ (c : AnalyticsClient) (d : Dict) (s : String),
      (record_session c d s).result = .ok "tx_hash_placeholder"
      ∧ (record_session c d s).effects
          = [Effect.print ("Recording session for contract "
              ++ c.contract_id ++ ": " ++ d.pyRepr)]
      ∧ (record_session c d s).effects.all (fun e => !e.isTransactionOp) = true :=
  fun _ _ _ => ⟨rfl, rfl, rfl⟩

/-- C3: evaluation at an id no ledger record could have. `get_session` on the
unknown id "no-such-session" returns the fixed `{id, status: completed}`
dictionary as a normal result; it does not fail with `NotFound`. -/
theorem C3_get_session_unknown_id_returns_ok :
    (get_session clientC123 "no-such-session").result
      = .ok [("id", Value.str "no-such-session"),
             ("status", Value.str "completed")]
    ∧ returnsOk (get_session clientC123 "no-such-session").result = true :=
  ⟨rfl, rfl⟩

/-- C4: evaluation at a student/course pair with zero recorded sessions (the
code consults no session store, so every pair has zero sessions). The returned
dictionary reports the constant `progress: 100`, not a zero-valued summary
with `completion_ratio == 0`. -/
theorem C4_zero_session_progress_is_100 :
    (get_student_progress clientC123 "GSTUDENT" "course-1").result
      = .ok [("student", Value.str "GSTUDENT"),
             ("course", Value.str "course-1"), ("progress", Value.int 100)]
    ∧ Dict.lookup [("student", Value.str "GSTUDENT"),
        ("course", Value.str "course-1"), ("progress", Value.int 100)]
        "completion_ratio" = none :=
  ⟨rfl, by decide⟩

/-- C5: evaluation showing the returned summary has no `completion_ratio`
field at all; its only numeric field is the constant `progress = 100`, which
lies outside the closed interval [0, 1]. -/
theorem C5_progress_summary_lacks_ratio_in_unit_interval :
    (get_student_progress clientC123 "GSTUDENT2" "course-2").result
      = .ok [("student", Value.str "GSTUDENT2"),
             ("course", Value.str "course-2"), ("progress", Value.int 100)]
    ∧ Dict.lookup [("student", Value.str "GSTUDENT2"),
        ("course", Value.str "course-2"), ("progress", Value.int 100)]
        "completion_ratio" = none
    ∧ Dict.lookup [("student", Value.str "GSTUDENT2"),
        ("course", Value.str "course-2"), ("progress", Value.int 100)]
        "progress" = some (Value.int 100)
    ∧ (1 : Int) < 100 :=
  ⟨rfl, by decide, by decide, by decide⟩

/-- C6: for every receiver and arguments, `get_session` and
`get_student_progress` return dictionaries assembled only from constants and
the call arguments; the result is independent of the receiver (hence of any
stored state), and the receiver is unchanged (nothing is persisted). -/
theorem C6_reads_are_fixed_and_nonpersisted :
    ∀ (c c₂ : AnalyticsClient) (sid a cid : String),
      (get_session c sid).result
          = .ok [("id", Value.str sid), ("status", Value.str "completed")]
      ∧ (get_student_progress c a cid).result
          = .ok [("student", Value.str a), ("course", Value.str cid),
                 ("progress", Value.int 100)]
      ∧ (get_session c sid).result = (get_session c₂ sid).result
      ∧ (get_student_progress c a cid).result
          = (get_student_progress c₂ a cid).result
      ∧ (get_session c sid).selfAfter = c
      ∧ (get_student_progress c a cid).selfAfter = c :=
  fun _ _ _ _ _ => ⟨rfl, rfl, rfl, rfl, rfl, rfl⟩

/-- C7: for every configuration whatsoever — any contract id, any endpoint
URL (reachable or not), any network passphrase (matching or not) —
construction stores the values unvalidated and succeeds; no `ConfigError`
branch exists. -/
theorem C7_init_accepts_any_configuration :
    ∀ (cid url pass : String),
      AnalyticsClient.init cid url pass = .ok ⟨cid, ⟨url⟩, pass⟩ :=
  fun _ _ _ => rfl

/-- C8: for every receiver and every session id, recorded or not,
`get_session` returns exactly the dictionary echoing the id with status
"completed", and performs no side effect. -/
theorem C8_get_session_echoes_id_completed :
    ∀ (c : AnalyticsClient) (sid : String),
      (get_session c sid).result
          = .ok [("id", Value.str sid), ("status", Value.str "completed")]
      ∧ (get_session c sid).effects = [] :=
  fun _ _ => ⟨rfl, rfl⟩

/-- C9: every method leaves the receiver's fields unchanged, and each method's
return value depends only on that call's arguments: two receivers given the
same arguments produce equal results. -/
theorem C9_methods_preserve_client_and_are_deterministic :
    ∀ (c c₂ : AnalyticsClient) (d : Dict) (s sid a cid : String),
      (record_session c d s).selfAfter = c
      ∧ (get_session c sid).selfAfter = c
      ∧ (get_student_progress c a cid).selfAfter = c
      ∧ (record_session c d s).result = (record_session c₂ d s).result
      ∧ (get_session c sid).result = (get_session c₂ sid).result
      ∧ (get_student_progress c a cid).result
          = (get_student_progress c₂ a cid).result :=
  fun _ _ _ _ _ _ _ => ⟨rfl, rfl, rfl, rfl, rfl, rfl⟩

/-- C10: for every receiver and all arguments of the declared types, each of
the three methods returns normally; no error branch is reachable. -/
theorem C10_no_method_raises :
    ∀ (c : AnalyticsClient) (d : Dict) (s sid a cid : String),
      returnsOk (record_session c d s).result = true
      ∧ returnsOk (get_session c sid).result = true
      ∧ returnsOk (get_student_progress c a cid).result = true :=
  fun _ _ _ _ _ _ => ⟨rfl, rfl, rfl⟩
